import Mathlib

/-
Shallow embedding of the student CRUD service in src/main.py.

The service keeps one relational table `students` with columns
id (integer primary key, auto-assigned), name (String(100), not null),
age (Integer, not null), address (String(255), not null) and
email (String(100), unique, not null).  Five request handlers
(get_students, get_student, create_student, update_student,
delete_student) act on it through a per-request session.

The store (MySQL) is external to the repository; it is embedded here as
the table state `DB` (a list of rows plus the auto-increment counter),
with the two constraints the schema in src/main.py lines 31-35 declares:
the auto-assigned primary key and the unique index on email.  An
unhandled store exception (e.g. an IntegrityError from the unique
index) propagates out of a handler as a server fault, since no handler
in src/main.py catches store exceptions; that outcome is the
`storeFault` constructor below, distinct from the deliberate
`HTTPException`s the handlers raise.
-/

deriving instance DecidableEq for Except

namespace StudentApp

/-- Pydantic input schema `StudentCreate` of src/main.py lines 38-45:
the four business fields, no id. -/
structure StudentCreate where
  name : String
  age : Int
  address : String
  email : String
deriving DecidableEq, Repr

/-- One persisted row of the `students` table (model `Student`,
src/main.py lines 26-35): the four business fields plus the id. -/
structure StudentRow where
  id : Int
  name : String
  age : Int
  address : String
  email : String
deriving DecidableEq, Repr

/-- The table state: the rows in insertion order together with the
store's auto-increment counter for the primary key. -/
structure DB where
  rows : List StudentRow
  nextId : Int
deriving DecidableEq, Repr

/-- Outcome of a handler other than its success value: either a
deliberate `HTTPException status detail` raised by the handler
(src/main.py lines 93, 119, 139), or an unhandled store exception
propagating to the framework's generic failure path. -/
inductive HandlerError where
  | http (status : Nat) (detail : String)
  | storeFault (detail : String)
deriving DecidableEq, Repr

/-- The single-quote character, used by the interpolated SQL text. -/
def sq : String := String.singleton (Char.ofNat 39)

/-- Statement text executed by get_students (src/main.py line 79). -/
def select_all_stmt : String := "SELECT * FROM students"

/-- Statement text executed by get_student (src/main.py line 90): the
id is interpolated into the text by an f-string. -/
def get_student_stmt (student_id : Int) : String :=
  "SELECT * FROM students WHERE id = " ++ toString student_id

/-- Statement text executed by update_student (src/main.py lines
122-125): all four field values and the id are interpolated into the
text by an f-string, the string fields between single quotes. -/
def update_student_stmt (student_id : Int) (u : StudentCreate) : String :=
  "UPDATE students SET name=" ++ sq ++ u.name ++ sq ++
    ", age=" ++ toString u.age ++
    ", address=" ++ sq ++ u.address ++ sq ++
    ", email=" ++ sq ++ u.email ++ sq ++
    " WHERE id=" ++ toString student_id

/-- Statement text executed by delete_student (src/main.py line 141). -/
def delete_student_stmt (student_id : Int) : String :=
  "DELETE FROM students WHERE id = " ++ toString student_id

/-- Row lookup performed by the SELECT ... WHERE id = ... statements
(src/main.py lines 90, 116, 136): the row with the given id, if any. -/
def findById (rows : List StudentRow) (student_id : Int) : Option StudentRow :=
  rows.find? (fun r => r.id == student_id)

/-- The store's unique-index check on email for an INSERT: true when
some existing row already has this email. -/
def emailTaken (rows : List StudentRow) (email : String) : Bool :=
  rows.any (fun r => r.email == email)

/-- The store's unique-index check on email for an UPDATE of the row
with id `student_id`: true when a DIFFERENT row already has this
email. -/
def emailTakenByOther (rows : List StudentRow) (student_id : Int) (email : String) : Bool :=
  rows.any (fun r => r.id != student_id && r.email == email)

/-- The row effect of the UPDATE statement of src/main.py lines
122-125 on one row: SET the four business fields WHERE id matches,
leaving the id itself unchanged. -/
def updRow (student_id : Int) (u : StudentCreate) (r : StudentRow) : StudentRow :=
  if r.id == student_id then
    ⟨r.id, u.name, u.age, u.address, u.email⟩
  else r

/-- Handler GET /students (src/main.py lines 72-81): SELECT * and
return every row.  Each handler returns its response paired with the
table state after the request. -/
def get_students (db : DB) : Except HandlerError (List StudentRow) × DB :=
  (Except.ok db.rows, db)

/-- Handler GET /students/id (src/main.py lines 83-94): SELECT the
row WHERE id matches; 404 when absent. -/
def get_student (db : DB) (student_id : Int) : Except HandlerError StudentRow × DB :=
  match findById db.rows student_id with
  | none => (Except.error (HandlerError.http 404 "Student not found"), db)
  | some r => (Except.ok r, db)

/-- Handler POST /students (src/main.py lines 96-107): add the new
row and commit.  The handler itself performs no duplicate check; when
the email is already taken the store's unique index rejects the
insert at commit and the IntegrityError propagates uncaught, leaving
the table unchanged.  Otherwise the store assigns the next id and the
handler returns the refreshed row. -/
def create_student (db : DB) (student : StudentCreate) :
    Except HandlerError StudentRow × DB :=
  if emailTaken db.rows student.email then
    (Except.error (HandlerError.storeFault "IntegrityError: duplicate email"), db)
  else
    let new_student : StudentRow :=
      ⟨db.nextId, student.name, student.age, student.address, student.email⟩
    (Except.ok new_student, ⟨db.rows ++ [new_student], db.nextId + 1⟩)

/-- Handler PUT /students/id (src/main.py lines 109-127): SELECT the
row WHERE id matches, 404 when absent; otherwise execute the UPDATE
of lines 122-125 and commit.  The handler performs no email
uniqueness re-check; when another row already has the new email the
store's unique index rejects the UPDATE and the IntegrityError
propagates uncaught, leaving the table unchanged.  On success the
response is built from the path id and the request body (line 127). -/
def update_student (db : DB) (student_id : Int) (updated_student : StudentCreate) :
    Except HandlerError StudentRow × DB :=
  match findById db.rows student_id with
  | none => (Except.error (HandlerError.http 404 "Student not found"), db)
  | some _ =>
    if emailTakenByOther db.rows student_id updated_student.email then
      (Except.error (HandlerError.storeFault "IntegrityError: duplicate email"), db)
    else
      (Except.ok ⟨student_id, updated_student.name, updated_student.age,
          updated_student.address, updated_student.email⟩,
        ⟨db.rows.map (updRow student_id updated_student), db.nextId⟩)

/-- Handler DELETE /students/id (src/main.py lines 129-143): SELECT
the row WHERE id matches, 404 when absent; otherwise DELETE WHERE id
matches, commit, and return the confirmation message of line 143. -/
def delete_student (db : DB) (student_id : Int) :
    Except HandlerError String × DB :=
  match findById db.rows student_id with
  | none => (Except.error (HandlerError.http 404 "Student not found"), db)
  | some _ =>
    (Except.ok ("Student with ID " ++ toString student_id ++ " deleted"),
      ⟨db.rows.filter (fun r => r.id != student_id), db.nextId⟩)

/-- Untyped JSON-like request payload, the input of the validation
layer. -/
inductive JValue where
  | jnull
  | jbool (b : Bool)
  | jint (n : Int)
  | jstr (s : String)
  | jarr (xs : List JValue)
  | jobj (fields : List (String × JValue))

/-- Value of a field of an object payload, if present. -/
def lookupField (fields : List (String × JValue)) (k : String) : Option JValue :=
  (fields.find? (fun kv => kv.1 == k)).map (fun kv => kv.2)

/-- Modelled from the spec: the validation the pydantic library (not
part of this repository) performs for a field declared `str` in the
`StudentCreate` schema of src/main.py lines 42-45 — the field must be
present and hold a string; otherwise the error names the field and
what is wrong. -/
def strField (fields : List (String × JValue)) (k : String) : Except String String :=
  match lookupField fields k with
  | none => Except.error (k ++ ": field required")
  | some (JValue.jstr s) => Except.ok s
  | some _ => Except.error (k ++ ": str type expected")

/-- Modelled from the spec: the validation the pydantic library (not
part of this repository) performs for a field declared `int` in the
`StudentCreate` schema of src/main.py line 43. -/
def intField (fields : List (String × JValue)) (k : String) : Except String Int :=
  match lookupField fields k with
  | none => Except.error (k ++ ": field required")
  | some (JValue.jint n) => Except.ok n
  | some _ => Except.error (k ++ ": value is not a valid integer")

/-- Error list contributed by one field check. -/
def errsOf {α : Type} (r : Except String α) : List String :=
  match r with
  | Except.ok _ => []
  | Except.error e => [e]

/-- Modelled from the spec: validation of an untyped payload against
the `StudentCreate` schema declared in src/main.py lines 38-45 (the
validating code itself lives in the pydantic library, outside this
repository).  The payload must be an object carrying the four
declared fields with their declared types; otherwise the result
enumerates the error of every missing or wrong-typed field.  No table
state is consulted: the function does not take a `DB`. -/
def validate (v : JValue) : Except (List String) StudentCreate :=
  match v with
  | JValue.jobj fields =>
    match strField fields "name", intField fields "age",
        strField fields "address", strField fields "email" with
    | Except.ok n, Except.ok a, Except.ok ad, Except.ok e =>
      Except.ok ⟨n, a, ad, e⟩
    | rn, ra, rad, rem =>
      Except.error (errsOf rn ++ errsOf ra ++ errsOf rad ++ errsOf rem)
  | _ => Except.error ["value is not a valid dict"]

/-! Helper lemmas about the embedded operations. -/

theorem findById_eq_none {rows : List StudentRow} {sid : Int}
    (h : ∀ r ∈ rows, r.id ≠ sid) : findById rows sid = none := by
  simp only [findById, List.find?_eq_none]
  intro r hr
  simpa using h r hr

theorem findById_isSome {rows : List StudentRow} {sid : Int} {r : StudentRow}
    (hr : r ∈ rows) (hid : r.id = sid) : ∃ q, findById rows sid = some q := by
  have : (rows.find? (fun q => q.id == sid)).isSome := by
    rw [List.find?_isSome]
    exact ⟨r, hr, by simp [hid]⟩
  exact Option.isSome_iff_exists.mp this

theorem findById_id {rows : List StudentRow} {sid : Int} {q : StudentRow}
    (h : findById rows sid = some q) : q.id = sid := by
  have := List.find?_some h
  simpa using this

theorem findById_mem {rows : List StudentRow} {sid : Int} {q : StudentRow}
    (h : findById rows sid = some q) : q ∈ rows :=
  List.mem_of_find?_eq_some h

theorem emailTaken_eq_false {rows : List StudentRow} {email : String}
    (h : ∀ r ∈ rows, r.email ≠ email) : emailTaken rows email = false := by
  simp only [emailTaken, List.any_eq_false]
  intro r hr
  simpa using h r hr

theorem emailTakenByOther_eq_false {rows : List StudentRow} {sid : Int} {email : String}
    (h : ∀ r ∈ rows, r.id ≠ sid → r.email ≠ email) :
    emailTakenByOther rows sid email = false := by
  simp only [emailTakenByOther, List.any_eq_false]
  intro r hr
  simp only [Bool.and_eq_true, bne_iff_ne, beq_iff_eq, not_and]
  exact h r hr

theorem updRow_id (sid : Int) (u : StudentCreate) (r : StudentRow) :
    (updRow sid u r).id = r.id := by
  unfold updRow
  split <;> rfl

theorem updRow_of_ne (sid : Int) (u : StudentCreate) (r : StudentRow)
    (h : r.id ≠ sid) : updRow sid u r = r := by
  simp [updRow, h]

/-! Claim theorems. -/

/-- C1: the claim says every input value reaches the store as a bound
parameter, so the executed statement text is one fixed template per
operation.  The code instead interpolates the values into the
statement text with f-strings: the executed text of get_student,
update_student and delete_student differs between two inputs of the
same operation, and the raw field values appear literally (between
single quotes for the string fields) in the update statement. -/
theorem c1_statement_text_interpolates_values :
    get_student_stmt 1 ≠ get_student_stmt 2 ∧
    update_student_stmt 7 ⟨"Ann", 20, "1 Rd", "ann@x.com"⟩ ≠
      update_student_stmt 7 ⟨"Bob", 20, "1 Rd", "ann@x.com"⟩ ∧
    delete_student_stmt 1 ≠ delete_student_stmt 2 ∧
    update_student_stmt 7 ⟨"Ann", 20, "1 Rd", "ann@x.com"⟩ =
      "UPDATE students SET name=" ++ sq ++ "Ann" ++ sq ++ ", age=20, address=" ++ sq ++
        "1 Rd" ++ sq ++ ", email=" ++ sq ++ "ann@x.com" ++ sq ++ " WHERE id=7" :=
  ⟨by decide, by decide, by decide, by decide⟩

/-- Table with one persisted student, Ann, email ann@x.com. -/
def tableC2 : DB := ⟨[⟨1, "Ann", 20, "1 Rd", "ann@x.com"⟩], 2⟩

/-- Valid input whose email equals Ann's persisted email. -/
def inputC2 : StudentCreate := ⟨"Bob", 21, "2 Rd", "ann@x.com"⟩

/-- C2: creating a student whose email is already persisted.  The
table does end with exactly one row for that email, but the failure
is the store's unique-index IntegrityError propagating out of the
handler as an unhandled server fault: the handler has no
duplicate-email branch, so no HTTPException (in particular no 409
conflict result) is produced, contrary to the claim. -/
theorem c2_duplicate_email_create_unhandled_fault :
    create_student tableC2 inputC2 =
      (Except.error (HandlerError.storeFault "IntegrityError: duplicate email"), tableC2) ∧
    (∀ status detail,
      (create_student tableC2 inputC2).1 ≠ Except.error (HandlerError.http status detail)) ∧
    ((create_student tableC2 inputC2).2.rows.filter (fun r => r.email == "ann@x.com")).length
      = 1 := by
  refine ⟨by decide, ?_, by decide⟩
  intro status detail h
  have h1 : (create_student tableC2 inputC2).1 =
      Except.error (HandlerError.storeFault "IntegrityError: duplicate email") := by decide
  rw [h1] at h
  simp at h

/-- Table with two persisted students: Ann (id 1) and Bob (id 2). -/
def tableC3 : DB :=
  ⟨[⟨1, "Ann", 20, "1 Rd", "ann@x.com"⟩, ⟨2, "Bob", 21, "2 Rd", "bob@x.com"⟩], 3⟩

/-- Valid update input whose email equals Bob's persisted email. -/
def inputC3 : StudentCreate := ⟨"Ann B", 20, "1 Rd", "bob@x.com"⟩

/-- C3: updating an existing id (1) with an email persisted for some
other row (Bob's, id 2).  The handler performs no uniqueness re-check:
the store's unique index rejects the UPDATE and the IntegrityError
propagates as an unhandled generic store fault — no HTTPException (in
particular no 409 conflict result) is produced, contrary to the
claim. -/
theorem c3_update_duplicate_email_unhandled_fault :
    update_student tableC3 1 inputC3 =
      (Except.error (HandlerError.storeFault "IntegrityError: duplicate email"), tableC3) ∧
    (∀ status detail,
      (update_student tableC3 1 inputC3).1 ≠ Except.error (HandlerError.http status detail)) ∧
    (get_student tableC3 2).1 = Except.ok ⟨2, "Bob", 21, "2 Rd", "bob@x.com"⟩ := by
  refine ⟨by decide, ?_, by decide⟩
  intro status detail h
  have h1 : (update_student tableC3 1 inputC3).1 =
      Except.error (HandlerError.storeFault "IntegrityError: duplicate email") := by decide
  rw [h1] at h
  simp at h

/-- Payload whose string fields are all empty: well-typed, so the
schema accepts it. -/
def payloadC4 : JValue :=
  JValue.jobj [("name", JValue.jstr ""), ("age", JValue.jint 1),
    ("address", JValue.jstr ""), ("email", JValue.jstr "")]

/-- C4 counterexample: the declared schema types the fields but does
not reject empty strings, so a payload with empty name, address and
email passes validation and create persists a row whose string fields
are all the empty string — refuting the non-emptiness part of the
claim. -/
theorem c4_counterexample_empty_strings_stored :
    validate payloadC4 = Except.ok ⟨"", 1, "", ""⟩ ∧
    create_student ⟨[], 1⟩ ⟨"", 1, "", ""⟩ =
      (Except.ok ⟨1, "", 1, "", ""⟩, ⟨[⟨1, "", 1, "", ""⟩], 2⟩) ∧
    ∃ r ∈ (create_student ⟨[], 1⟩ ⟨"", 1, "", ""⟩).2.rows,
      r.name = "" ∧ r.address = "" ∧ r.email = "" := by
  refine ⟨by decide, by decide, ?_⟩
  exact ⟨⟨1, "", 1, "", ""⟩, by decide, rfl, rfl, rfl⟩

/-- C4 amended: every persisted record always carries all four
business fields with their declared types and partial records are
never stored — a failed write leaves the table unchanged, a
successful create appends exactly the full record built from the
input, and after a successful update every row is either an untouched
old row or carries all four input fields — but the string fields are
not guaranteed non-empty (see the counterexample). -/
theorem c4_amended_complete_row_or_nothing (db : DB) (s : StudentCreate) (sid : Int) :
    (∀ e, (create_student db s).1 = Except.error e → (create_student db s).2 = db) ∧
    (∀ row db2, create_student db s = (Except.ok row, db2) →
      row = ⟨db.nextId, s.name, s.age, s.address, s.email⟩ ∧
      db2.rows = db.rows ++ [⟨db.nextId, s.name, s.age, s.address, s.email⟩]) ∧
    (∀ e, (update_student db sid s).1 = Except.error e → (update_student db sid s).2 = db) ∧
    (∀ row db2, update_student db sid s = (Except.ok row, db2) →
      ∀ q ∈ db2.rows, q ∈ db.rows ∨ q = ⟨q.id, s.name, s.age, s.address, s.email⟩) := by
  refine ⟨?_, ?_, ?_, ?_⟩
  · intro e he
    unfold create_student at he ⊢
    by_cases hc : emailTaken db.rows s.email
    · simp [hc]
    · simp [hc] at he
  · intro row db2 hok
    unfold create_student at hok
    split at hok
    · simp at hok
    · simp only [Prod.mk.injEq] at hok
      obtain ⟨h1, h2⟩ := hok
      have hrow : row = ⟨db.nextId, s.name, s.age, s.address, s.email⟩ := by
        simpa using h1.symm
      exact ⟨hrow, by rw [← h2]⟩
  · intro e he
    unfold update_student at he ⊢
    cases hf : findById db.rows sid with
    | none => simp [hf]
    | some r =>
      by_cases hc : emailTakenByOther db.rows sid s.email
      · simp [hf, hc]
      · simp [hf, hc] at he
  · intro row db2 hok q hq
    unfold update_student at hok
    split at hok
    · simp at hok
    · split at hok
      · simp at hok
      · simp only [Prod.mk.injEq] at hok
        obtain ⟨-, h2⟩ := hok
        rw [← h2] at hq
        simp only [List.mem_map] at hq
        obtain ⟨r, hr, hru⟩ := hq
        by_cases hid : r.id = sid
        · right
          rw [← hru]
          unfold updRow
          simp [hid]
        · left
          rw [← hru, updRow_of_ne _ _ _ hid]
          exact hr

/-- C4 amended witness: the failed-create clause at the concrete
duplicate-email input of C2. -/
theorem c4_amended_witness :
    (create_student tableC2 inputC2).2 = tableC2 :=
  (c4_amended_complete_row_or_nothing tableC2 inputC2 0).1
    (HandlerError.storeFault "IntegrityError: duplicate email") (by decide)

/-- Table with one persisted student, Cara, email cara@x.com. -/
def tableC5 : DB := ⟨[⟨1, "Cara", 19, "5 Rd", "cara@x.com"⟩], 2⟩

/-- Well-typed payload whose email equals Cara's persisted email. -/
def payloadC5 : JValue :=
  JValue.jobj [("name", JValue.jstr "Dan"), ("age", JValue.jint 22),
    ("address", JValue.jstr "6 Rd"), ("email", JValue.jstr "cara@x.com")]

/-- The validated form of payloadC5. -/
def inputC5 : StudentCreate := ⟨"Dan", 22, "6 Rd", "cara@x.com"⟩

/-- C5 counterexample: the claim quantifies over every table state
and every valid input, but an input whose email is already persisted
passes validation and create returns no output record at all — the
insert is rejected by the unique index and the failure propagates —
so the claimed round-trip fails for this state and input. -/
theorem c5_counterexample_duplicate_email_input :
    validate payloadC5 = Except.ok inputC5 ∧
    ∀ row : StudentRow, (create_student tableC5 inputC5).1 ≠ Except.ok row := by
  refine ⟨by decide, ?_⟩
  intro row h
  have h1 : (create_student tableC5 inputC5).1 =
      Except.error (HandlerError.storeFault "IntegrityError: duplicate email") := by decide
  rw [h1] at h
  simp at h

/-- C5 amended: for every table state whose row ids are below the
auto-increment counter and every valid input whose email is not
already persisted, create returns a record whose id no existing row
uses, carrying exactly the input's four field values, and an
immediately subsequent get-by-id with that id returns that same
record with the table left as create produced it. -/
theorem c5_amended_create_get_roundtrip (db : DB) (s : StudentCreate)
    (hid : ∀ r ∈ db.rows, r.id < db.nextId)
    (he : ∀ r ∈ db.rows, r.email ≠ s.email) :
    ∃ row db2,
      create_student db s = (Except.ok row, db2) ∧
      (∀ r ∈ db.rows, r.id ≠ row.id) ∧
      row.name = s.name ∧ row.age = s.age ∧ row.address = s.address ∧ row.email = s.email ∧
      get_student db2 row.id = (Except.ok row, db2) := by
  have ht : emailTaken db.rows s.email = false := emailTaken_eq_false he
  refine ⟨⟨db.nextId, s.name, s.age, s.address, s.email⟩,
    ⟨db.rows ++ [⟨db.nextId, s.name, s.age, s.address, s.email⟩], db.nextId + 1⟩,
    ?_, ?_, rfl, rfl, rfl, rfl, ?_⟩
  · simp [create_student, ht]
  · intro r hr
    exact ne_of_lt (hid r hr)
  · have hnone : db.rows.find? (fun r => r.id == (db.nextId : Int)) = none := by
      rw [List.find?_eq_none]
      intro r hr
      simp only [beq_iff_eq]
      exact ne_of_lt (hid r hr)
    unfold get_student findById
    simp [List.find?_append, hnone]

/-- C5 amended witness: the round-trip at the empty table with a
concrete valid input. -/
theorem c5_roundtrip_witness :
    ∃ row db2,
      create_student ⟨[], 1⟩ ⟨"Ann", 20, "1 Rd", "ann@x.com"⟩ = (Except.ok row, db2) ∧
      (∀ r ∈ (⟨[], 1⟩ : DB).rows, r.id ≠ row.id) ∧
      row.name = "Ann" ∧ row.age = 20 ∧ row.address = "1 Rd" ∧ row.email = "ann@x.com" ∧
      get_student db2 row.id = (Except.ok row, db2) :=
  c5_amended_create_get_roundtrip ⟨[], 1⟩ ⟨"Ann", 20, "1 Rd", "ann@x.com"⟩
    (by intro r hr; simp at hr) (by intro r hr; simp at hr)

/-- Table with two persisted students: Eve (id 1) and Finn (id 2). -/
def tableC6 : DB :=
  ⟨[⟨1, "Eve", 20, "1 Rd", "eve@x.com"⟩, ⟨2, "Finn", 21, "2 Rd", "finn@x.com"⟩], 3⟩

/-- Valid update input whose email equals Finn's persisted email. -/
def inputC6 : StudentCreate := ⟨"Eve B", 22, "3 Rd", "finn@x.com"⟩

/-- C6 counterexample: the claim quantifies over every existing id
and every valid input, but updating id 1 with a valid input whose
email another row already holds does not replace the fields: the
store's unique index rejects the UPDATE, the failure propagates, the
table is unchanged and a subsequent get still returns the old
values. -/
theorem c6_counterexample_duplicate_email_update :
    update_student tableC6 1 inputC6 =
      (Except.error (HandlerError.storeFault "IntegrityError: duplicate email"), tableC6) ∧
    (get_student tableC6 1).1 = Except.ok ⟨1, "Eve", 20, "1 Rd", "eve@x.com"⟩ :=
  ⟨by decide, by decide⟩

/-- C6 amended: for every existing id and every valid input whose
email no OTHER row holds, update replaces all four business fields of
the matching row with the input's values, keeps the id unchanged, and
a subsequent get-by-id returns exactly the new field values; rows
with a different id survive untouched. -/
theorem c6_amended_update_replaces_fields (db : DB) (sid : Int) (s : StudentCreate)
    (hex : ∃ r ∈ db.rows, r.id = sid)
    (he : ∀ q ∈ db.rows, q.id ≠ sid → q.email ≠ s.email) :
    update_student db sid s =
      (Except.ok ⟨sid, s.name, s.age, s.address, s.email⟩,
        ⟨db.rows.map (updRow sid s), db.nextId⟩) ∧
    get_student ⟨db.rows.map (updRow sid s), db.nextId⟩ sid =
      (Except.ok ⟨sid, s.name, s.age, s.address, s.email⟩,
        ⟨db.rows.map (updRow sid s), db.nextId⟩) ∧
    (∀ q ∈ db.rows, q.id ≠ sid → q ∈ db.rows.map (updRow sid s)) := by
  obtain ⟨r, hr, hrid⟩ := hex
  obtain ⟨r0, hr0⟩ := findById_isSome hr hrid
  have hbo : emailTakenByOther db.rows sid s.email = false := emailTakenByOther_eq_false he
  refine ⟨?_, ?_, ?_⟩
  · simp [update_student, hr0, hbo]
  · have hcomp : ((fun q : StudentRow => q.id == sid) ∘ updRow sid s) =
        (fun q : StudentRow => q.id == sid) := by
      funext q
      simp [Function.comp, updRow_id]
    have hfind : findById (db.rows.map (updRow sid s)) sid =
        some ⟨sid, s.name, s.age, s.address, s.email⟩ := by
      unfold findById at hr0 ⊢
      rw [List.find?_map, hcomp, hr0]
      have hid0 : r0.id = sid := findById_id hr0
      simp [updRow, hid0]
    simp [get_student, hfind]
  · intro q hq hqid
    exact List.mem_map.mpr ⟨q, hq, updRow_of_ne sid s q hqid⟩

/-- C6 amended witness: updating Finn (id 2) in the two-row table
with a fresh email. -/
theorem c6_update_witness :
    update_student tableC6 2 ⟨"Finn B", 23, "4 Rd", "finn2@x.com"⟩ =
      (Except.ok ⟨2, "Finn B", 23, "4 Rd", "finn2@x.com"⟩,
        ⟨tableC6.rows.map (updRow 2 ⟨"Finn B", 23, "4 Rd", "finn2@x.com"⟩), tableC6.nextId⟩) ∧
    get_student ⟨tableC6.rows.map (updRow 2 ⟨"Finn B", 23, "4 Rd", "finn2@x.com"⟩),
        tableC6.nextId⟩ 2 =
      (Except.ok ⟨2, "Finn B", 23, "4 Rd", "finn2@x.com"⟩,
        ⟨tableC6.rows.map (updRow 2 ⟨"Finn B", 23, "4 Rd", "finn2@x.com"⟩), tableC6.nextId⟩) ∧
    (∀ q ∈ tableC6.rows, q.id ≠ 2 →
      q ∈ tableC6.rows.map (updRow 2 ⟨"Finn B", 23, "4 Rd", "finn2@x.com"⟩)) :=
  c6_amended_update_replaces_fields tableC6 2 ⟨"Finn B", 23, "4 Rd", "finn2@x.com"⟩
    ⟨⟨2, "Finn", 21, "2 Rd", "finn@x.com"⟩, by decide, rfl⟩ (by decide)

/-- C7: updating an id no row carries fails with the 404 Student not
found result, and the table after the operation is exactly the table
before it — the handler raises before any statement that writes. -/
theorem c7_update_missing_id_404_unchanged (db : DB) (sid : Int) (s : StudentCreate)
    (h : ∀ r ∈ db.rows, r.id ≠ sid) :
    update_student db sid s = (Except.error (HandlerError.http 404 "Student not found"), db) := by
  have hn : findById db.rows sid = none := findById_eq_none h
  simp [update_student, hn]

/-- C7 witness: updating id 999999 on the empty table. -/
theorem c7_update_missing_witness :
    update_student ⟨[], 1⟩ 999999 ⟨"Ann", 20, "1 Rd", "ann@x.com"⟩ =
      (Except.error (HandlerError.http 404 "Student not found"), ⟨[], 1⟩) :=
  c7_update_missing_id_404_unchanged ⟨[], 1⟩ 999999 ⟨"Ann", 20, "1 Rd", "ann@x.com"⟩
    (by intro r hr; simp at hr)

/-- C8: deleting an existing id (carried by row `r`, with the table's
ids pairwise distinct as the primary key guarantees) succeeds with
the confirmation message naming the id, removes that row and no
other, adds nothing, get_students afterwards lists a table without
it, and a second delete of the same id fails with the 404 result. -/
theorem c8_delete_removes_exactly_row (db : DB) (sid : Int) (r : StudentRow)
    (hr : r ∈ db.rows) (hid : r.id = sid)
    (hnd : (db.rows.map StudentRow.id).Nodup) :
    ∃ db2,
      delete_student db sid =
        (Except.ok ("Student with ID " ++ toString sid ++ " deleted"), db2) ∧
      r ∉ db2.rows ∧
      (∀ q ∈ db2.rows, q.id ≠ sid) ∧
      (∀ q ∈ db.rows, q ≠ r → q ∈ db2.rows) ∧
      (∀ q ∈ db2.rows, q ∈ db.rows) ∧
      (get_students db2).1 = Except.ok db2.rows ∧
      delete_student db2 sid = (Except.error (HandlerError.http 404 "Student not found"), db2) := by
  obtain ⟨r0, hr0⟩ := findById_isSome hr hid
  refine ⟨⟨db.rows.filter (fun q => q.id != sid), db.nextId⟩, ?_, ?_, ?_, ?_, ?_, rfl, ?_⟩
  · simp [delete_student, hr0]
  · intro hmem
    have := (List.mem_filter.mp hmem).2
    simp only [bne_iff_ne] at this
    exact this hid
  · intro q hq
    have := (List.mem_filter.mp hq).2
    simpa using this
  · intro q hq hqr
    refine List.mem_filter.mpr ⟨hq, ?_⟩
    simp only [bne_iff_ne]
    intro hqid
    exact hqr (List.inj_on_of_nodup_map hnd hq hr (hqid.trans hid.symm))
  · intro q hq
    exact (List.mem_filter.mp hq).1
  · have hn : findById (db.rows.filter (fun q => q.id != sid)) sid = none := by
      apply findById_eq_none
      intro q hq
      have := (List.mem_filter.mp hq).2
      simpa using this
    simp [delete_student, hn]

/-- C8 witness: deleting id 1 from a one-row table. -/
theorem c8_delete_witness :
    ∃ db2,
      delete_student ⟨[⟨1, "Gil", 20, "1 Rd", "gil@x.com"⟩], 2⟩ 1 =
        (Except.ok ("Student with ID " ++ toString (1 : Int) ++ " deleted"), db2) ∧
      (⟨1, "Gil", 20, "1 Rd", "gil@x.com"⟩ : StudentRow) ∉ db2.rows ∧
      (∀ q ∈ db2.rows, q.id ≠ 1) ∧
      (∀ q ∈ (⟨[⟨1, "Gil", 20, "1 Rd", "gil@x.com"⟩], 2⟩ : DB).rows,
        q ≠ ⟨1, "Gil", 20, "1 Rd", "gil@x.com"⟩ → q ∈ db2.rows) ∧
      (∀ q ∈ db2.rows, q ∈ (⟨[⟨1, "Gil", 20, "1 Rd", "gil@x.com"⟩], 2⟩ : DB).rows) ∧
      (get_students db2).1 = Except.ok db2.rows ∧
      delete_student db2 1 = (Except.error (HandlerError.http 404 "Student not found"), db2) :=
  c8_delete_removes_exactly_row ⟨[⟨1, "Gil", 20, "1 Rd", "gil@x.com"⟩], 2⟩ 1
    ⟨1, "Gil", 20, "1 Rd", "gil@x.com"⟩ (by decide) rfl (by decide)

/-- C10: the two read handlers return the table state they were given
— list_all always, and get-by-id whether the id exists or not; only
create, update and delete produce a different table state. -/
theorem c10_reads_leave_table_unchanged (db : DB) (sid : Int) :
    (get_students db).2 = db ∧ (get_student db sid).2 = db := by
  refine ⟨rfl, ?_⟩
  unfold get_student
  cases hf : findById db.rows sid <;> simp

theorem validate_obj_total (fields : List (String × JValue)) :
    (∃ s, validate (JValue.jobj fields) = Except.ok s) ∨
    (∃ errs, errs ≠ [] ∧ validate (JValue.jobj fields) = Except.error errs) := by
  rcases hn : strField fields "name" with e1 | n <;>
    rcases ha : intField fields "age" with e2 | a <;>
      rcases had : strField fields "address" with e3 | ad <;>
        rcases hem : strField fields "email" with e4 | em <;>
          simp [validate, hn, ha, had, hem, errsOf]

theorem intField_error_of_wrong_type (fields : List (String × JValue)) (k : String)
    (j : JValue) (hl : lookupField fields k = some j)
    (hj : ∀ n : Int, j ≠ JValue.jint n) :
    intField fields k = Except.error (k ++ ": value is not a valid integer") := by
  unfold intField
  rw [hl]
  cases j with
  | jint n => exact absurd rfl (hj n)
  | jnull => rfl
  | jbool b => rfl
  | jstr t => rfl
  | jarr xs => rfl
  | jobj fs => rfl

theorem strField_error_of_wrong_type (fields : List (String × JValue)) (k : String)
    (j : JValue) (hl : lookupField fields k = some j)
    (hj : ∀ t : String, j ≠ JValue.jstr t) :
    strField fields k = Except.error (k ++ ": str type expected") := by
  unfold strField
  rw [hl]
  cases j with
  | jstr t => exact absurd rfl (hj t)
  | jnull => rfl
  | jbool b => rfl
  | jint n => rfl
  | jarr xs => rfl
  | jobj fs => rfl

theorem validate_mem_of_age_error (fields : List (String × JValue)) (e : String)
    (ha : intField fields "age" = Except.error e) :
    ∃ errs, validate (JValue.jobj fields) = Except.error errs ∧ e ∈ errs := by
  refine ⟨errsOf (strField fields "name") ++ errsOf (intField fields "age") ++
    errsOf (strField fields "address") ++ errsOf (strField fields "email"), ?_, ?_⟩
  · rcases hn : strField fields "name" with e1 | n <;>
      rcases had : strField fields "address" with e3 | ad <;>
        rcases hem : strField fields "email" with e4 | em <;>
          simp [validate, hn, ha, had, hem, errsOf]
  · rw [ha]
    simp [errsOf]

theorem validate_mem_of_email_error (fields : List (String × JValue)) (e : String)
    (hem : strField fields "email" = Except.error e) :
    ∃ errs, validate (JValue.jobj fields) = Except.error errs ∧ e ∈ errs := by
  refine ⟨errsOf (strField fields "name") ++ errsOf (intField fields "age") ++
    errsOf (strField fields "address") ++ errsOf (strField fields "email"), ?_, ?_⟩
  · rcases hn : strField fields "name" with e1 | n <;>
      rcases ha : intField fields "age" with e2 | a <;>
        rcases had : strField fields "address" with e3 | ad <;>
          simp [validate, hn, ha, had, hem, errsOf]
  · rw [hem]
    simp [errsOf]

/-- C9: validation either yields a well-formed input value or fails
with a non-empty list of per-field errors; in particular a payload
whose age field holds anything but an integer is rejected with an
error naming age, and one whose email field holds anything but a
string is rejected with an error naming email.  Validation is a pure
function of the payload alone: its type takes no table state. -/
theorem c9_validation_total_and_rejects :
    (∀ v : JValue, (∃ s, validate v = Except.ok s) ∨
      (∃ errs, errs ≠ [] ∧ validate v = Except.error errs)) ∧
    (∀ fields j, lookupField fields "age" = some j → (∀ n : Int, j ≠ JValue.jint n) →
      ∃ errs, validate (JValue.jobj fields) = Except.error errs ∧
        "age: value is not a valid integer" ∈ errs) ∧
    (∀ fields j, lookupField fields "email" = some j → (∀ t : String, j ≠ JValue.jstr t) →
      ∃ errs, validate (JValue.jobj fields) = Except.error errs ∧
        "email: str type expected" ∈ errs) := by
  refine ⟨?_, ?_, ?_⟩
  · intro v
    cases v with
    | jobj fields => exact validate_obj_total fields
    | jnull => exact Or.inr ⟨["value is not a valid dict"], by simp, by simp [validate]⟩
    | jbool b => exact Or.inr ⟨["value is not a valid dict"], by simp, by simp [validate]⟩
    | jint n => exact Or.inr ⟨["value is not a valid dict"], by simp, by simp [validate]⟩
    | jstr t => exact Or.inr ⟨["value is not a valid dict"], by simp, by simp [validate]⟩
    | jarr xs => exact Or.inr ⟨["value is not a valid dict"], by simp, by simp [validate]⟩
  · intro fields j hl hj
    exact validate_mem_of_age_error fields _ (intField_error_of_wrong_type fields "age" j hl hj)
  · intro fields j hl hj
    exact validate_mem_of_email_error fields _ (strField_error_of_wrong_type fields "email" j hl hj)

/-- C9 witness: a payload whose age is the string "twenty" is
rejected with an error naming the age field. -/
theorem c9_wrong_typed_age_witness :
    ∃ errs,
      validate (JValue.jobj [("name", JValue.jstr "Ann"), ("age", JValue.jstr "twenty"),
        ("address", JValue.jstr "1 Rd"), ("email", JValue.jstr "ann@x.com")]) =
        Except.error errs ∧
      "age: value is not a valid integer" ∈ errs :=
  c9_validation_total_and_rejects.2.1 _ (JValue.jstr "twenty") rfl
    (fun _ h => JValue.noConfusion h)

end StudentApp
